import Mathlib

/-!
# Verification of the Weaviate demo front-end (`src/WeaviateSearchApp.js`)

A shallow embedding of the two stateful operations of the component:

* `handleFileUpload` (lines 40–83): file-extension check, JSON parsing,
  single-object normalization, per-record schema validation, catalog
  replacement, and status messages;
* `performSearch` (lines 86–125): the trimmed-query guard, the substring
  filter over the catalog, the top-5 truncation, and the per-mode
  `_metadata` decoration.

JavaScript values that may have arbitrary shape (the decoded upload) are
modelled by the inductive `Json`; records the search path accesses through a
fixed set of typed fields are modelled by the structure `Product`.
JavaScript numbers are modelled by `ℚ` (the constants involved are exact
decimals), `undefined`-or-value fields by `Option`, and a thrown/caught
parse error by `Except String`.
-/

namespace WeaviateApp

/-! ## JavaScript string primitives

The component uses four string primitives: `toLowerCase`, `trim`,
`endsWith`, and `includes`.  They are modelled structurally over the
character list of the string (the catalog data is basic-latin text, for
which `Char.toLower` agrees with JS `toLowerCase`). -/

/-- JS `s.toLowerCase()`. -/
def jsToLower (s : String) : String :=
  String.mk (s.data.map Char.toLower)

/-- JS `s.trim()`: strip leading and trailing whitespace. -/
def jsTrim (s : String) : String :=
  String.mk
    (((s.data.dropWhile Char.isWhitespace).reverse.dropWhile
        Char.isWhitespace).reverse)

/-- JS `s.endsWith(post)`. -/
def jsEndsWith (s post : String) : Bool :=
  post.data.isSuffixOf s.data

/-- Helper for `jsIncludes`: does `sub` occur as a contiguous run in the
character list? -/
def charsInclude (sub : List Char) : List Char → Bool
  | [] => sub.isEmpty
  | c :: cs => sub.isPrefixOf (c :: cs) || charsInclude sub cs

/-- JS `s.includes(sub)`: substring containment. -/
def jsIncludes (s sub : String) : Bool :=
  charsInclude sub.data s.data

/-- A JSON value, as produced by `JSON.parse`. -/
inductive Json where
  | null
  | bool (b : Bool)
  | num (q : ℚ)
  | str (s : String)
  | arr (elems : List Json)
  | obj (fields : List (String × Json))

/-- JS `value.hasOwnProperty(key)`: an own-property test on objects,
`false` on other non-null values (JS auto-boxes primitives, which carry
none of the seven keys), and a **thrown `TypeError`** on `null` — modelled
as `.error` carrying V8's message text.  `JSON.parse` happily produces
`null`, so the validator can hit this path. -/
def Json.hasOwnProperty : Json → String → Except String Bool
  | .null, _ =>
      .error "Cannot read properties of null (reading 'hasOwnProperty')"
  | .obj fields, key => .ok (fields.any (fun f => f.1 == key))
  | _, _ => .ok false

/-- Is the value JSON `null`? -/
def Json.isNull : Json → Bool
  | .null => true
  | _ => false

/-- The value `hasOwnProperty` returns when it does not throw. -/
def Json.hasOwnPropertyB : Json → String → Bool
  | .obj fields, key => fields.any (fun f => f.1 == key)
  | _, _ => false

/-- Line 35: the required fields of a product record. -/
def requiredFields : List String :=
  ["product_id", "name", "description", "category", "price", "brand", "tags"]

/-- Lines 34–37: `validateProductStructure` — `requiredFields.every(...)`,
short-circuiting on the first absent field; on a `null` record the first
`hasOwnProperty` call throws and the error propagates to the caller. -/
def validateProductStructure (product : Json) : Except String Bool :=
  requiredFields.allM (fun field => product.hasOwnProperty field)

/-- What the validator computes on every non-null record: all seven
required fields present as own properties.  (Presence only; values are not
inspected.) -/
def hasRequiredFields (product : Json) : Bool :=
  requiredFields.all (fun field => product.hasOwnPropertyB field)

/-- The `uploadStatus` state variable: a kind tag and a message (line 11). -/
structure UploadStatus where
  type : String
  message : String
deriving DecidableEq

/-- The slice of component state that `handleFileUpload` reads and writes:
the `products` catalog and the `uploadStatus` message. -/
structure UploadState where
  products : List Json
  uploadStatus : UploadStatus

/-- An uploaded file: its name, and the outcome of `JSON.parse` on its text
(`.ok` the decoded value, `.error` the parser's message). -/
structure UploadFile where
  name : String
  content : Except String Json

/-- Line 58: `Array.isArray(jsonData) ? jsonData : [jsonData]` — wrap a
non-array value into a one-element array. -/
def productsArrayOf (jsonData : Json) : List Json :=
  match jsonData with
  | .arr elems => elems
  | j => [j]

/-- Line 63: the schema-violation message, reporting the invalid count. -/
def schemaViolationMessage (n : Nat) : String :=
  "Invalid product structure found. Missing required fields in " ++
    toString n ++ " products."

/-- Line 61:
`productsArray.filter(product => !validateProductStructure(product))` —
the callback runs left to right, and the first error it throws (a `null`
record's `TypeError`) aborts the whole filter and propagates. -/
def invalidProductsOf : List Json → Except String (List Json)
  | [] => .ok []
  | product :: rest =>
      match validateProductStructure product with
      | .error e => .error e
      | .ok valid =>
          match invalidProductsOf rest with
          | .error e => .error e
          | .ok tail => .ok (if !valid then product :: tail else tail)

/-- Lines 40–83: `handleFileUpload`.  A non-`.json` name is rejected before
the content is touched; a parse error, a schema violation, and a
`TypeError` thrown while validating a `null` record are all routed through
the single `catch`, which prefixes `"Error parsing JSON: "` to the caught
message; on success the catalog is replaced wholesale. -/
def handleFileUpload (st : UploadState) (file : UploadFile) : UploadState :=
  if !(jsEndsWith file.name ".json") then
    { st with uploadStatus := ⟨"error", "Please upload a JSON file"⟩ }
  else
    match file.content with
    | .error msg =>
        { st with uploadStatus := ⟨"error", "Error parsing JSON: " ++ msg⟩ }
    | .ok jsonData =>
        let productsArray := productsArrayOf jsonData
        match invalidProductsOf productsArray with
        | .error msg =>
            { st with uploadStatus :=
                ⟨"error", "Error parsing JSON: " ++ msg⟩ }
        | .ok invalidProducts =>
            if invalidProducts.length > 0 then
              { st with uploadStatus :=
                  ⟨"error", "Error parsing JSON: " ++
                    schemaViolationMessage invalidProducts.length⟩ }
            else
              { products := productsArray,
                uploadStatus :=
                  ⟨"success", "Successfully loaded " ++
                    toString productsArray.length ++ " products"⟩ }

/-! ## The search path (`performSearch`, lines 86–125)

The filter on lines 97–101 reads `name`, `description`, `tags` (and the
decoration on line 109 additionally `category`) of each catalog record, so
the search layer works on records of that shape: a well-formed product, as
validated sample data provides. -/

/-- A well-formed product record (the shape of `sampleProducts`,
lines 16–31, without the optional `specifications` map). -/
structure Product where
  product_id : String
  name : String
  description : String
  category : String
  price : ℚ
  brand : String
  tags : List String
deriving DecidableEq

/-- The `_metadata` attachment built on lines 106–110: each field is
`undefined` (`none`) unless the active mode populates it. -/
structure Metadata where
  score : Option ℚ
  distance : Option ℚ
  generated : Option String
deriving DecidableEq

/-- A search result, line 104–111: the spread product together with the
single added own property `_metadata`. -/
structure SearchResult where
  product : Product
  _metadata : Metadata
deriving DecidableEq

/-- Lines 98–100: the match predicate — lowercase query contained in the
lowercase name, or the lowercase description, or some lowercase tag. -/
def matchesQuery (searchQuery : String) (product : Product) : Bool :=
  jsIncludes (jsToLower product.name) (jsToLower searchQuery) ||
  jsIncludes (jsToLower product.description) (jsToLower searchQuery) ||
  product.tags.any (fun tag => jsIncludes (jsToLower tag) (jsToLower searchQuery))

/-- Line 109: the RAG template sentence. -/
def generatedText (searchQuery : String) (product : Product) : String :=
  "This " ++ product.name ++ " would be perfect for " ++ searchQuery ++
  " because of its " ++ String.intercalate ", " product.tags ++
  " features and " ++ jsToLower product.category ++ " design."

/-- Lines 104–111: decorate one filtered product at its 0-based `index`
in the truncated list with the mode's metadata. -/
def decorate (searchType searchQuery : String) (index : Nat)
    (product : Product) : SearchResult :=
  { product := product
    _metadata :=
      { score :=
          if searchType == "keyword" then some (0.95 - (index : ℚ) * 0.1)
          else none
        distance :=
          if searchType == "vector" then some (0.1 + (index : ℚ) * 0.05)
          else none
        generated :=
          if searchType == "rag" then some (generatedText searchQuery product)
          else none } }

/-- Lines 97–111: filter the catalog, keep the first 5 matches, decorate
each with its index's metadata. -/
def computeResults (products : List Product) (searchQuery searchType : String) :
    List SearchResult :=
  let mockResults := (products.filter (fun p => matchesQuery searchQuery p)).take 5
  mockResults.enum.map (fun p => decorate searchType searchQuery p.1 p.2)

/-- The slice of component state that `performSearch` reads and writes. -/
structure SearchState where
  products : List Product
  searchQuery : String
  searchResults : List SearchResult
  connectionStatus : String
deriving DecidableEq

/-- Lines 86–125: `performSearch`.  A query that is empty after trimming
returns immediately with no state change (line 87); otherwise the results
are replaced by the decorated matches and the connection indicator moves to
`connected`.  (The transient `setSearchResults([])` on line 90 and the
simulated delay are invisible in the final state.) -/
def performSearch (st : SearchState) (searchType : String) : SearchState :=
  if jsTrim st.searchQuery == "" then st
  else
    { st with
      searchResults := computeResults st.products st.searchQuery searchType
      connectionStatus := "connected" }

/-! ## Theorems: the upload path -/

/-- Helper: `hasOwnProperty` does not throw on non-null values, returning
its pure content. -/
lemma hasOwnProperty_of_not_null (p : Json) (f : String)
    (h : p.isNull = false) :
    p.hasOwnProperty f = .ok (p.hasOwnPropertyB f) := by
  cases p <;> simp_all [Json.isNull, Json.hasOwnProperty, Json.hasOwnPropertyB]

/-- Helper: on a non-null record, the monadic `every` computes the pure
conjunction of the own-property tests. -/
lemma allM_hasOwnProperty (fs : List String) (p : Json)
    (h : p.isNull = false) :
    fs.allM (fun f => p.hasOwnProperty f)
      = .ok (fs.all (fun f => p.hasOwnPropertyB f)) := by
  induction fs with
  | nil => rfl
  | cons f fs ih =>
      simp only [List.allM, hasOwnProperty_of_not_null p f h, ih,
        List.all_cons]
      cases hb : p.hasOwnPropertyB f <;>
        simp only [hb, Bool.false_and, Bool.true_and] <;> rfl

/-- Helper: the validator is pure on non-null records. -/
lemma validateProductStructure_of_not_null (p : Json) (h : p.isNull = false) :
    validateProductStructure p = .ok (hasRequiredFields p) :=
  allM_hasOwnProperty requiredFields p h

/-- Helper: on a batch with no `null` record, the filter of invalid
records throws nothing and returns the pure filter. -/
lemma invalidProductsOf_no_null (l : List Json)
    (h : ∀ p ∈ l, p.isNull = false) :
    invalidProductsOf l = .ok (l.filter (fun p => !(hasRequiredFields p))) := by
  induction l with
  | nil => rfl
  | cons p ps ih =>
      have hp := h p (List.mem_cons_self p ps)
      have hps := ih (fun q hq => h q (List.mem_cons_of_mem p hq))
      simp [invalidProductsOf, validateProductStructure_of_not_null p hp,
        hps, List.filter_cons]

/-- Helper: when the invalid-record filter completes, every batch element
either validated to `true` or is in the returned invalid list. -/
lemma mem_invalid_of_invalidProductsOf_ok (l inv : List Json)
    (hok : invalidProductsOf l = .ok inv) :
    ∀ p ∈ l, validateProductStructure p = .ok true ∨ p ∈ inv := by
  induction l generalizing inv with
  | nil => intro p hp; cases hp
  | cons q qs ih =>
      intro p hp
      rw [invalidProductsOf] at hok
      cases hv : validateProductStructure q with
      | error e => rw [hv] at hok; cases hok
      | ok v =>
          rw [hv] at hok
          cases hr : invalidProductsOf qs with
          | error e => rw [hr] at hok; cases hok
          | ok tail =>
              rw [hr] at hok
              have hinv : (if !v then q :: tail else tail) = inv := by
                cases hok; rfl
              rcases List.mem_cons.mp hp with rfl | hmem
              · cases v
                · right; rw [← hinv]; simp
                · left; exact hv
              · rcases ih tail hr p hmem with h1 | h2
                · left; exact h1
                · right; rw [← hinv]; cases v <;> simp [h2]

/-- Helper: a batch whose every record validates to `true` yields an empty
invalid list. -/
lemma invalidProductsOf_all_valid (l : List Json)
    (h : ∀ p ∈ l, validateProductStructure p = .ok true) :
    invalidProductsOf l = .ok [] := by
  induction l with
  | nil => rfl
  | cons q qs ih =>
      have hq := h q (List.mem_cons_self q qs)
      have hqs := ih (fun p hp => h p (List.mem_cons_of_mem q hp))
      simp [invalidProductsOf, hq, hqs]

/-- C6: a file whose name does not end in `.json` is rejected with the
unsupported-format message before its content is examined — the outcome is
the same for every content, and no state besides `uploadStatus` changes. -/
theorem C6_unsupported_format_rejected_early (st : UploadState) (name : String)
    (content : Except String Json) (h : jsEndsWith name ".json" = false) :
    handleFileUpload st ⟨name, content⟩ =
      { st with uploadStatus := ⟨"error", "Please upload a JSON file"⟩ } := by
  simp [handleFileUpload, h]

/-- Witness for C6 at the spec's concrete scenario `data.csv`. -/
theorem C6_witness :
    handleFileUpload ⟨[], ⟨"", ""⟩⟩ ⟨"data.csv", .error "ignored"⟩ =
      { products := [],
        uploadStatus := ⟨"error", "Please upload a JSON file"⟩ } :=
  C6_unsupported_format_rejected_early ⟨[], ⟨"", ""⟩⟩ "data.csv"
    (.error "ignored") (by decide)

/-- C3 counterexample: a batch containing JSON `null` — a record lacking
all seven required attributes as own properties — is rejected with the
catalog unchanged, but the error message is the caught `TypeError` text,
**not** a message reporting the count of invalid elements, refuting the
claim's message clause. -/
theorem C3_counterexample_null_record :
    (handleFileUpload ⟨[.str "old"], ⟨"", ""⟩⟩
        ⟨"batch.json", .ok (.arr [.null])⟩).products = [.str "old"]
    ∧ (handleFileUpload ⟨[.str "old"], ⟨"", ""⟩⟩
        ⟨"batch.json", .ok (.arr [.null])⟩).uploadStatus
      = ⟨"error", "Error parsing JSON: " ++
          "Cannot read properties of null (reading 'hasOwnProperty')"⟩
    ∧ ¬ (handleFileUpload ⟨[.str "old"], ⟨"", ""⟩⟩
        ⟨"batch.json", .ok (.arr [.null])⟩).uploadStatus.message
      = "Error parsing JSON: " ++ schemaViolationMessage 1 :=
  ⟨rfl, rfl, by decide⟩

/-- C3 (amended): a batch with an element that fails validation (or
throws) is rejected wholesale with the catalog unchanged and an error
status; when no element of the batch is JSON `null`, the error message
additionally reports the count of invalid elements.  (A batch containing
`null` is instead rejected with the caught `TypeError` message.) -/
theorem C3_invalid_batch_rejected_wholesale (st : UploadState) (name : String)
    (j : Json) (h1 : jsEndsWith name ".json" = true) :
    ((∃ p ∈ productsArrayOf j, ¬ validateProductStructure p = .ok true) →
      (handleFileUpload st ⟨name, .ok j⟩).products = st.products
      ∧ (handleFileUpload st ⟨name, .ok j⟩).uploadStatus.type = "error")
    ∧ ((∀ p ∈ productsArrayOf j, p.isNull = false) →
       (∃ p ∈ productsArrayOf j, hasRequiredFields p = false) →
        (handleFileUpload st ⟨name, .ok j⟩).products = st.products
        ∧ (handleFileUpload st ⟨name, .ok j⟩).uploadStatus =
            ⟨"error", "Error parsing JSON: " ++
              schemaViolationMessage
                ((productsArrayOf j).filter
                  (fun p => !(hasRequiredFields p))).length⟩) := by
  constructor
  · rintro ⟨p, hp, hpv⟩
    cases hio : invalidProductsOf (productsArrayOf j) with
    | error e => simp [handleFileUpload, h1, hio]
    | ok inv =>
        have hmem : p ∈ inv :=
          (mem_invalid_of_invalidProductsOf_ok _ _ hio p hp).resolve_left hpv
        have hlen : 0 < inv.length :=
          List.length_pos.mpr (List.ne_nil_of_mem hmem)
        simp [handleFileUpload, h1, hio, hlen]
  · intro hnn h2
    obtain ⟨p, hp, hpv⟩ := h2
    have hio := invalidProductsOf_no_null (productsArrayOf j) hnn
    have hmem : p ∈ (productsArrayOf j).filter
        (fun q => !(hasRequiredFields q)) :=
      List.mem_filter.mpr ⟨hp, by simp [hpv]⟩
    have hlen : 0 < ((productsArrayOf j).filter
        (fun q => !(hasRequiredFields q))).length :=
      List.length_pos.mpr (List.ne_nil_of_mem hmem)
    simp [handleFileUpload, h1, hio, hlen]

/-- Witness for the amended C3: a two-element null-free batch with one
element missing `price` and the other four attributes. -/
theorem C3_witness :
    ((handleFileUpload ⟨[.str "old"], ⟨"old", "status"⟩⟩
        ⟨"catalog.json", .ok (.arr
          [.obj [("product_id", .str "p1"), ("name", .str "A"),
            ("description", .str "d"), ("category", .str "c"),
            ("price", .num 1), ("brand", .str "b"), ("tags", .arr [])],
           .obj [("product_id", .str "p2"), ("name", .str "B")]])⟩).products
      = [.str "old"]
    ∧ (handleFileUpload ⟨[.str "old"], ⟨"old", "status"⟩⟩
        ⟨"catalog.json", .ok (.arr
          [.obj [("product_id", .str "p1"), ("name", .str "A"),
            ("description", .str "d"), ("category", .str "c"),
            ("price", .num 1), ("brand", .str "b"), ("tags", .arr [])],
           .obj [("product_id", .str "p2"), ("name", .str "B")]])⟩).uploadStatus.type
      = "error")
    ∧ ((handleFileUpload ⟨[.str "old"], ⟨"old", "status"⟩⟩
        ⟨"catalog.json", .ok (.arr
          [.obj [("product_id", .str "p1"), ("name", .str "A"),
            ("description", .str "d"), ("category", .str "c"),
            ("price", .num 1), ("brand", .str "b"), ("tags", .arr [])],
           .obj [("product_id", .str "p2"), ("name", .str "B")]])⟩).products
      = [.str "old"]
    ∧ (handleFileUpload ⟨[.str "old"], ⟨"old", "status"⟩⟩
        ⟨"catalog.json", .ok (.arr
          [.obj [("product_id", .str "p1"), ("name", .str "A"),
            ("description", .str "d"), ("category", .str "c"),
            ("price", .num 1), ("brand", .str "b"), ("tags", .arr [])],
           .obj [("product_id", .str "p2"), ("name", .str "B")]])⟩).uploadStatus
      = ⟨"error", "Error parsing JSON: " ++
          schemaViolationMessage
            ((productsArrayOf (.arr
              [.obj [("product_id", .str "p1"), ("name", .str "A"),
                ("description", .str "d"), ("category", .str "c"),
                ("price", .num 1), ("brand", .str "b"), ("tags", .arr [])],
               .obj [("product_id", .str "p2"), ("name", .str "B")]])).filter
              (fun p => !(hasRequiredFields p))).length⟩) :=
  ⟨(C3_invalid_batch_rejected_wholesale ⟨[.str "old"], ⟨"old", "status"⟩⟩
      "catalog.json" _ (by decide)).1
    ⟨.obj [("product_id", .str "p2"), ("name", .str "B")],
      by simp [productsArrayOf],
      by rw [show validateProductStructure
          (.obj [("product_id", .str "p2"), ("name", .str "B")])
          = .ok false from rfl]; simp⟩,
   (C3_invalid_batch_rejected_wholesale ⟨[.str "old"], ⟨"old", "status"⟩⟩
      "catalog.json" _ (by decide)).2 (by decide)
    ⟨.obj [("product_id", .str "p2"), ("name", .str "B")],
      by simp [productsArrayOf], by decide⟩⟩

/-- C7: the decoded value is normalized — a non-array value is wrapped into
a one-element batch, arrays pass through unchanged — and a fully valid
batch replaces the catalog with exactly the normalized sequence. -/
theorem C7_single_object_wrapped (st : UploadState) (name : String) (j : Json)
    (h1 : jsEndsWith name ".json" = true)
    (h2 : ∀ p ∈ productsArrayOf j, validateProductStructure p = .ok true) :
    (handleFileUpload st ⟨name, .ok j⟩).products = productsArrayOf j
    ∧ (∀ fields, productsArrayOf (.obj fields) = [.obj fields])
    ∧ (∀ elems, productsArrayOf (.arr elems) = elems) := by
  have hnil : invalidProductsOf (productsArrayOf j) = .ok [] :=
    invalidProductsOf_all_valid _ h2
  refine ⟨?_, fun _ => rfl, fun _ => rfl⟩
  simp [handleFileUpload, h1, hnil]

/-- Witness for C7: a valid single object loads as a one-element catalog. -/
theorem C7_witness :
    (handleFileUpload ⟨[], ⟨"", ""⟩⟩
        ⟨"one.json", .ok (.obj [("product_id", .str "p1"), ("name", .str "A"),
          ("description", .str "d"), ("category", .str "c"),
          ("price", .num 1), ("brand", .str "b"),
          ("tags", .arr [.str "t"])])⟩).products
      = productsArrayOf (.obj [("product_id", .str "p1"), ("name", .str "A"),
          ("description", .str "d"), ("category", .str "c"),
          ("price", .num 1), ("brand", .str "b"), ("tags", .arr [.str "t"])])
    ∧ (∀ fields, productsArrayOf (.obj fields) = [.obj fields])
    ∧ (∀ elems, productsArrayOf (.arr elems) = elems) :=
  C7_single_object_wrapped ⟨[], ⟨"", ""⟩⟩ "one.json" _ (by decide)
    (by intro p hp
        rw [show productsArrayOf (.obj [("product_id", .str "p1"),
          ("name", .str "A"), ("description", .str "d"),
          ("category", .str "c"), ("price", .num 1), ("brand", .str "b"),
          ("tags", .arr [.str "t"])]) = [.obj [("product_id", .str "p1"),
          ("name", .str "A"), ("description", .str "d"),
          ("category", .str "c"), ("price", .num 1), ("brand", .str "b"),
          ("tags", .arr [.str "t"])]] from rfl, List.mem_singleton] at hp
        subst hp
        rfl)

/-- C8 counterexample: a record whose `price` is the string `"free"` and
whose `tags` is the number `42` passes `validateProductStructure` and is
accepted into the catalog — the validator does not enforce the types the
claim asserts, only the presence of the seven keys. -/
theorem C8_counterexample_types_not_enforced :
    validateProductStructure (.obj [("product_id", .str "p1"),
      ("name", .str "N"), ("description", .str "D"), ("category", .str "C"),
      ("price", .str "free"), ("brand", .str "B"), ("tags", .num 42)])
      = .ok true
    ∧ (handleFileUpload ⟨[], ⟨"", ""⟩⟩
        ⟨"bad.json", .ok (.obj [("product_id", .str "p1"),
          ("name", .str "N"), ("description", .str "D"),
          ("category", .str "C"), ("price", .str "free"),
          ("brand", .str "B"), ("tags", .num 42)])⟩).uploadStatus.type
      = "success"
    ∧ (handleFileUpload ⟨[], ⟨"", ""⟩⟩
        ⟨"bad.json", .ok (.obj [("product_id", .str "p1"),
          ("name", .str "N"), ("description", .str "D"),
          ("category", .str "C"), ("price", .str "free"),
          ("brand", .str "B"), ("tags", .num 42)])⟩).products
      = [.obj [("product_id", .str "p1"), ("name", .str "N"),
          ("description", .str "D"), ("category", .str "C"),
          ("price", .str "free"), ("brand", .str "B"), ("tags", .num 42)]] :=
  ⟨by rfl, by rfl, by rfl⟩

/-- C8 (amended): every record accepted by the catalog loader has all seven
required attributes present as own properties — presence only; the values'
types (numeric `price`, string-sequence `tags`) are not checked. -/
theorem C8_accepted_records_have_required_fields (st : UploadState)
    (file : UploadFile)
    (h : (handleFileUpload st file).uploadStatus.type = "success") :
    ∀ p ∈ (handleFileUpload st file).products,
      validateProductStructure p = .ok true := by
  obtain ⟨name, content⟩ := file
  by_cases hn : jsEndsWith name ".json" = true
  · cases content with
    | error msg => simp [handleFileUpload, hn] at h
    | ok jsonData =>
        cases hio : invalidProductsOf (productsArrayOf jsonData) with
        | error e => simp [handleFileUpload, hn, hio] at h
        | ok inv =>
            by_cases hinv : 0 < inv.length
            · simp [handleFileUpload, hn, hio, hinv] at h
            · have hnil : inv = [] :=
                List.length_eq_zero.mp (Nat.eq_zero_of_not_pos hinv)
              subst hnil
              intro p hp
              have hp2 : p ∈ productsArrayOf jsonData := by
                simpa [handleFileUpload, hn, hio] using hp
              exact (mem_invalid_of_invalidProductsOf_ok _ _ hio p
                hp2).resolve_right (by simp)
  · simp only [Bool.not_eq_true] at hn
    simp [handleFileUpload, hn] at h

/-- Witness for the amended C8 at the record of a concrete successful
upload. -/
theorem C8_witness :
    validateProductStructure (.obj [("product_id", .str "p1"),
      ("name", .str "N"), ("description", .str "D"),
      ("category", .str "C"), ("price", .num 1),
      ("brand", .str "B"), ("tags", .arr [.str "t"])]) = .ok true :=
  C8_accepted_records_have_required_fields ⟨[], ⟨"", ""⟩⟩
    ⟨"ok.json", .ok (.arr [.obj [("product_id", .str "p1"),
      ("name", .str "N"), ("description", .str "D"),
      ("category", .str "C"), ("price", .num 1),
      ("brand", .str "B"), ("tags", .arr [.str "t"])]])⟩ (by rfl)
    (.obj [("product_id", .str "p1"), ("name", .str "N"),
      ("description", .str "D"), ("category", .str "C"),
      ("price", .num 1), ("brand", .str "B"), ("tags", .arr [.str "t"])])
    (List.mem_singleton_self _)

/-- C9: once the `.json` extension check passes, both failure kinds — a
parse error and a schema violation — surface with the same literal message
head `"Error parsing JSON: "`, distinguishable only by the appended text. -/
theorem C9_failures_share_message_head (st : UploadState) (name : String)
    (h1 : jsEndsWith name ".json" = true) :
    (∀ msg, (handleFileUpload st ⟨name, .error msg⟩).uploadStatus =
        ⟨"error", "Error parsing JSON: " ++ msg⟩)
    ∧ (∀ j, (∃ p ∈ productsArrayOf j, ¬ validateProductStructure p = .ok true) →
        ∃ rest, (handleFileUpload st ⟨name, .ok j⟩).uploadStatus =
          ⟨"error", "Error parsing JSON: " ++ rest⟩) := by
  constructor
  · intro msg
    simp [handleFileUpload, h1]
  · rintro j ⟨p, hp, hpv⟩
    cases hio : invalidProductsOf (productsArrayOf j) with
    | error e =>
        exact ⟨e, by simp [handleFileUpload, h1, hio]⟩
    | ok inv =>
        have hmem : p ∈ inv :=
          (mem_invalid_of_invalidProductsOf_ok _ _ hio p hp).resolve_left hpv
        have hlen : 0 < inv.length :=
          List.length_pos.mpr (List.ne_nil_of_mem hmem)
        exact ⟨schemaViolationMessage inv.length,
          by simp [handleFileUpload, h1, hio, hlen]⟩

/-- Witness for C9 at a concrete parse failure and a concrete schema
failure. -/
theorem C9_witness :
    (∀ msg, (handleFileUpload ⟨[], ⟨"", ""⟩⟩
        ⟨"x.json", .error msg⟩).uploadStatus =
        ⟨"error", "Error parsing JSON: " ++ msg⟩)
    ∧ (∀ j, (∃ p ∈ productsArrayOf j, ¬ validateProductStructure p = .ok true) →
        ∃ rest, (handleFileUpload ⟨[], ⟨"", ""⟩⟩
          ⟨"x.json", .ok j⟩).uploadStatus =
          ⟨"error", "Error parsing JSON: " ++ rest⟩) :=
  C9_failures_share_message_head ⟨[], ⟨"", ""⟩⟩ "x.json" (by decide)

/-! ## Theorems: the search path -/

/-- Helper: the results' underlying products are exactly the first at most
five matches, in catalog order. -/
lemma computeResults_map_product (products : List Product) (q ty : String) :
    (computeResults products q ty).map (fun r => r.product)
      = (products.filter (fun p => matchesQuery q p)).take 5 := by
  simp only [computeResults, List.map_map]
  exact List.enum_map_snd _

/-- Helper: the result list has the length of the truncated match list. -/
lemma computeResults_length (products : List Product) (q ty : String) :
    (computeResults products q ty).length
      = ((products.filter (fun p => matchesQuery q p)).take 5).length := by
  simp [computeResults]

/-- Helper: the truncated match list is no longer than the result list. -/
lemma take5_lt_of_lt (products : List Product) (q ty : String) (i : Nat)
    (hi : i < (computeResults products q ty).length) :
    i < ((products.filter (fun p => matchesQuery q p)).take 5).length :=
  computeResults_length products q ty ▸ hi

/-- Helper: the `i`-th result is the `i`-th truncated match decorated at
index `i`. -/
lemma computeResults_get (products : List Product) (q ty : String) (i : Nat)
    (hi : i < (computeResults products q ty).length) :
    (computeResults products q ty).get ⟨i, hi⟩
      = decorate ty q i
          (((products.filter (fun p => matchesQuery q p)).take 5).get
            ⟨i, take5_lt_of_lt products q ty i hi⟩) := by
  simp [computeResults, List.get_eq_getElem, List.getElem_map,
    List.getElem_enum]

/-- Helper: with a non-blank query, `performSearch` replaces the results by
the computed ones. -/
lemma performSearch_results (st : SearchState) (searchType : String)
    (h : ¬ jsTrim st.searchQuery = "") :
    (performSearch st searchType).searchResults
      = computeResults st.products st.searchQuery searchType := by
  simp [performSearch, h]

/-- Helper: `(if b then some x else none).isSome = b`. -/
lemma isSome_ite_some {α : Type} (b : Bool) (x : α) :
    (if b = true then some x else none).isSome = b := by
  cases b <;> simp

/-- C2: with a non-blank query, every result's product matches the
case-insensitive substring predicate on name, description, or a tag, at
most five results are returned, and they are exactly the first at-most-5
matches in catalog order. -/
theorem C2_results_are_first_five_matches (st : SearchState)
    (searchType : String) (h : ¬ jsTrim st.searchQuery = "") :
    ((performSearch st searchType).searchResults.map (fun r => r.product)
        = (st.products.filter (fun p => matchesQuery st.searchQuery p)).take 5)
    ∧ (performSearch st searchType).searchResults.length ≤ 5
    ∧ (∀ r ∈ (performSearch st searchType).searchResults,
        matchesQuery st.searchQuery r.product = true) := by
  rw [performSearch_results st searchType h]
  refine ⟨computeResults_map_product _ _ _, ?_, ?_⟩
  · rw [computeResults_length]
    exact List.length_take_le _ _
  · intro r hr
    have hmem : r.product ∈ (st.products.filter
        (fun p => matchesQuery st.searchQuery p)).take 5 := by
      rw [← computeResults_map_product st.products st.searchQuery searchType]
      exact List.mem_map_of_mem _ hr
    exact (List.mem_filter.mp (List.mem_of_mem_take hmem)).2

/-- Witness for C2 at the spec's concrete one-product catalog. -/
theorem C2_witness :
    ((performSearch ⟨[⟨"p1", "Wireless Bluetooth Headphones",
        "Noise-cancelling", "Electronics", 199.99, "AudioTech",
        ["wireless", "bluetooth"]⟩], "bluetooth", [], "disconnected"⟩
        "keyword").searchResults.map (fun r => r.product)
      = ([⟨"p1", "Wireless Bluetooth Headphones", "Noise-cancelling",
          "Electronics", 199.99, "AudioTech",
          ["wireless", "bluetooth"]⟩].filter
          (fun p => matchesQuery "bluetooth" p)).take 5)
    ∧ (performSearch ⟨[⟨"p1", "Wireless Bluetooth Headphones",
        "Noise-cancelling", "Electronics", 199.99, "AudioTech",
        ["wireless", "bluetooth"]⟩], "bluetooth", [], "disconnected"⟩
        "keyword").searchResults.length ≤ 5
    ∧ (∀ r ∈ (performSearch ⟨[⟨"p1", "Wireless Bluetooth Headphones",
        "Noise-cancelling", "Electronics", 199.99, "AudioTech",
        ["wireless", "bluetooth"]⟩], "bluetooth", [], "disconnected"⟩
        "keyword").searchResults,
        matchesQuery "bluetooth" r.product = true) :=
  C2_results_are_first_five_matches _ "keyword" (by decide)

/-- C1 counterexample: in `hybrid` mode a matching product yields a result
whose `_metadata` has **none** of the three fields populated (`score`,
`distance`, `generated` all absent), refuting "exactly one of the three
metadata fields is populated" for the mode set that includes `hybrid`. -/
theorem C1_counterexample_hybrid_populates_nothing :
    ((performSearch ⟨[⟨"p1", "Wireless Bluetooth Headphones",
        "Noise-cancelling", "Electronics", 199, "AudioTech",
        ["wireless", "bluetooth"]⟩], "bluetooth", [], "disconnected"⟩
        "hybrid").searchResults.map (fun r => r._metadata))
      = [⟨none, none, none⟩] := by
  decide

/-- C1 (amended): at most one metadata field is populated, determined
solely by the mode: `keyword` populates exactly `score`, `vector` exactly
`distance`, `rag` exactly `generated`, and any other mode — `hybrid`
included — populates none. -/
theorem C1_metadata_determined_by_mode (st : SearchState)
    (searchType : String) (h : ¬ jsTrim st.searchQuery = "") :
    ∀ r ∈ (performSearch st searchType).searchResults,
      r._metadata.score.isSome = (searchType == "keyword")
      ∧ r._metadata.distance.isSome = (searchType == "vector")
      ∧ r._metadata.generated.isSome = (searchType == "rag") := by
  rw [performSearch_results st searchType h]
  intro r hr
  obtain ⟨⟨i, p⟩, _, rfl⟩ := List.mem_map.mp hr
  exact ⟨isSome_ite_some _ _, isSome_ite_some _ _, isSome_ite_some _ _⟩

/-- Witness for the amended C1 in keyword mode, at the single result of a
one-product catalog. -/
theorem C1_witness :
    (decorate "keyword" "bluetooth" 0 ⟨"p1", "Wireless Bluetooth Headphones",
        "Noise-cancelling", "Electronics", 199.99, "AudioTech",
        ["wireless", "bluetooth"]⟩)._metadata.score.isSome
        = ("keyword" == "keyword")
    ∧ (decorate "keyword" "bluetooth" 0 ⟨"p1",
        "Wireless Bluetooth Headphones", "Noise-cancelling", "Electronics",
        199.99, "AudioTech",
        ["wireless", "bluetooth"]⟩)._metadata.distance.isSome
        = ("keyword" == "vector")
    ∧ (decorate "keyword" "bluetooth" 0 ⟨"p1",
        "Wireless Bluetooth Headphones", "Noise-cancelling", "Electronics",
        199.99, "AudioTech",
        ["wireless", "bluetooth"]⟩)._metadata.generated.isSome
        = ("keyword" == "rag") :=
  C1_metadata_determined_by_mode
    ⟨[⟨"p1", "Wireless Bluetooth Headphones", "Noise-cancelling",
        "Electronics", 199.99, "AudioTech", ["wireless", "bluetooth"]⟩],
      "bluetooth", [], "disconnected"⟩ "keyword" (by decide) _
    (List.mem_singleton_self _)

/-- C4: keyword mode assigns `score = 0.95 − 0.1·i` and vector mode assigns
`distance = 0.1 + 0.05·i` at 0-based position `i` of the truncated result
list; consequently scores strictly decrease and distances strictly increase
with position. -/
theorem C4_scores_descend_distances_ascend (st : SearchState)
    (h : ¬ jsTrim st.searchQuery = "") :
    (∀ i (hi : i < (performSearch st "keyword").searchResults.length),
        ((performSearch st "keyword").searchResults.get ⟨i, hi⟩)._metadata.score
          = some (0.95 - (i : ℚ) * 0.1))
    ∧ (∀ i (hi : i < (performSearch st "vector").searchResults.length),
        ((performSearch st "vector").searchResults.get ⟨i, hi⟩)._metadata.distance
          = some (0.1 + (i : ℚ) * 0.05))
    ∧ (∀ i j (hi : i < (performSearch st "keyword").searchResults.length)
        (hj : j < (performSearch st "keyword").searchResults.length),
        i < j →
        ∃ si sj : ℚ,
          ((performSearch st "keyword").searchResults.get
            ⟨i, hi⟩)._metadata.score = some si
          ∧ ((performSearch st "keyword").searchResults.get
              ⟨j, hj⟩)._metadata.score = some sj
          ∧ sj < si)
    ∧ (∀ i j (hi : i < (performSearch st "vector").searchResults.length)
        (hj : j < (performSearch st "vector").searchResults.length),
        i < j →
        ∃ di dj : ℚ,
          ((performSearch st "vector").searchResults.get
            ⟨i, hi⟩)._metadata.distance = some di
          ∧ ((performSearch st "vector").searchResults.get
              ⟨j, hj⟩)._metadata.distance = some dj
          ∧ di < dj) := by
  have hsc : ∀ i (hi : i < (performSearch st "keyword").searchResults.length),
      ((performSearch st "keyword").searchResults.get ⟨i, hi⟩)._metadata.score
        = some (0.95 - (i : ℚ) * 0.1) := by
    intro i hi
    have hi' : i < (computeResults st.products st.searchQuery "keyword").length := by
      rw [← performSearch_results st "keyword" h]; exact hi
    have hg : (performSearch st "keyword").searchResults.get ⟨i, hi⟩
        = (computeResults st.products st.searchQuery "keyword").get ⟨i, hi'⟩ := by
      congr 1
      · exact performSearch_results st "keyword" h
      · exact (Fin.heq_ext_iff
          (by rw [performSearch_results st "keyword" h])).mpr rfl
    rw [hg, computeResults_get]
    simp [decorate]
  have hdi : ∀ i (hi : i < (performSearch st "vector").searchResults.length),
      ((performSearch st "vector").searchResults.get ⟨i, hi⟩)._metadata.distance
        = some (0.1 + (i : ℚ) * 0.05) := by
    intro i hi
    have hi' : i < (computeResults st.products st.searchQuery "vector").length := by
      rw [← performSearch_results st "vector" h]; exact hi
    have hg : (performSearch st "vector").searchResults.get ⟨i, hi⟩
        = (computeResults st.products st.searchQuery "vector").get ⟨i, hi'⟩ := by
      congr 1
      · exact performSearch_results st "vector" h
      · exact (Fin.heq_ext_iff
          (by rw [performSearch_results st "vector" h])).mpr rfl
    rw [hg, computeResults_get]
    simp [decorate]
  refine ⟨hsc, hdi, ?_, ?_⟩
  · intro i j hi hj hij
    refine ⟨0.95 - (i : ℚ) * 0.1, 0.95 - (j : ℚ) * 0.1, hsc i hi, hsc j hj, ?_⟩
    have hq : (i : ℚ) < (j : ℚ) := by exact_mod_cast hij
    have h01 : (0 : ℚ) < 0.1 := by norm_num
    nlinarith
  · intro i j hi hj hij
    refine ⟨0.1 + (i : ℚ) * 0.05, 0.1 + (j : ℚ) * 0.05, hdi i hi, hdi j hj, ?_⟩
    have hq : (i : ℚ) < (j : ℚ) := by exact_mod_cast hij
    have h05 : (0 : ℚ) < 0.05 := by norm_num
    nlinarith

/-- Witness for C4 at position 0 of a one-product catalog's keyword
results: the score carries the formula value `0.95 − 0.1·0`. -/
theorem C4_witness :
    ((performSearch ⟨[⟨"p1", "Wireless Bluetooth Headphones",
        "Noise-cancelling", "Electronics", 199.99, "AudioTech",
        ["wireless", "bluetooth"]⟩], "bluetooth", [], "disconnected"⟩
        "keyword").searchResults.get ⟨0, by decide⟩)._metadata.score
      = some (0.95 - ((0 : Nat) : ℚ) * 0.1) :=
  (C4_scores_descend_distances_ascend
    ⟨[⟨"p1", "Wireless Bluetooth Headphones", "Noise-cancelling",
        "Electronics", 199.99, "AudioTech", ["wireless", "bluetooth"]⟩],
      "bluetooth", [], "disconnected"⟩ (by decide)).1 0 (by decide)

/-- C5: a query that is blank after trimming makes `performSearch` a
complete no-op (state unchanged, no error), and an empty catalog with a
non-blank query yields an empty result set in every mode. -/
theorem C5_blank_query_noop_empty_catalog_empty (st : SearchState)
    (searchType : String) :
    (jsTrim st.searchQuery = "" → performSearch st searchType = st)
    ∧ (st.products = [] → ¬ jsTrim st.searchQuery = "" →
        (performSearch st searchType).searchResults = []) := by
  constructor
  · intro h
    simp [performSearch, h]
  · intro hcat h
    rw [performSearch_results st searchType h]
    simp [computeResults, hcat]

/-- Witness for C5: a whitespace query is a no-op; an empty catalog gives
an empty result set. -/
theorem C5_witness :
    (jsTrim "   " = "" →
      performSearch ⟨[], "   ", [], "disconnected"⟩ "keyword"
        = ⟨[], "   ", [], "disconnected"⟩)
    ∧ (performSearch ⟨[], "anything", [], "disconnected"⟩
        "vector").searchResults = [] :=
  ⟨(C5_blank_query_noop_empty_catalog_empty
      ⟨[], "   ", [], "disconnected"⟩ "keyword").1,
    (C5_blank_query_noop_empty_catalog_empty
      ⟨[], "anything", [], "disconnected"⟩ "vector").2 rfl (by decide)⟩

/-- C10: `performSearch` never modifies the catalog (or the query), and —
with a non-blank query — every returned result carries a product that is a
record of the catalog, unchanged, beside its single `_metadata`
attachment. -/
theorem C10_search_leaves_catalog_unchanged (st : SearchState)
    (searchType : String) :
    (performSearch st searchType).products = st.products
    ∧ (performSearch st searchType).searchQuery = st.searchQuery
    ∧ (¬ jsTrim st.searchQuery = "" →
        ∀ r ∈ (performSearch st searchType).searchResults,
          r.product ∈ st.products) := by
  refine ⟨?_, ?_, ?_⟩
  · by_cases h : jsTrim st.searchQuery = "" <;> simp [performSearch, h]
  · by_cases h : jsTrim st.searchQuery = "" <;> simp [performSearch, h]
  · intro h r hr
    rw [performSearch_results st searchType h] at hr
    have hmem : r.product ∈ (st.products.filter
        (fun p => matchesQuery st.searchQuery p)).take 5 := by
      rw [← computeResults_map_product st.products st.searchQuery searchType]
      exact List.mem_map_of_mem _ hr
    exact (List.mem_filter.mp (List.mem_of_mem_take hmem)).1

/-- Witness for C10 in rag mode at a one-product catalog. -/
theorem C10_witness :
    (performSearch ⟨[⟨"p1", "Wireless Bluetooth Headphones",
        "Noise-cancelling", "Electronics", 199.99, "AudioTech",
        ["wireless", "bluetooth"]⟩], "bluetooth", [], "disconnected"⟩
        "rag").products
      = [⟨"p1", "Wireless Bluetooth Headphones", "Noise-cancelling",
          "Electronics", 199.99, "AudioTech", ["wireless", "bluetooth"]⟩]
    ∧ (∀ r ∈ (performSearch ⟨[⟨"p1", "Wireless Bluetooth Headphones",
        "Noise-cancelling", "Electronics", 199.99, "AudioTech",
        ["wireless", "bluetooth"]⟩], "bluetooth", [], "disconnected"⟩
        "rag").searchResults,
        r.product ∈ [⟨"p1", "Wireless Bluetooth Headphones",
          "Noise-cancelling", "Electronics", 199.99, "AudioTech",
          ["wireless", "bluetooth"]⟩]) :=
  ⟨(C10_search_leaves_catalog_unchanged _ "rag").1,
    (C10_search_leaves_catalog_unchanged _ "rag").2.2 (by decide)⟩

end WeaviateApp
